import Mathlib

/-!
Shallow embedding of src/utils.py of the ilbo_recomm repository.

The pure computation of the source (string handling, response parsing,
per-row control flow, error bookkeeping, retry loop, sorted insertion) is
translated into executable Lean definitions.  The environment is passed in
explicitly:

* `jl : String → Option PyJson` stands for Python's `json.loads`
  (`none` models a raised `json.JSONDecodeError`);
* `api : List Message → ApiResult` stands for `call_clova_api`, whose
  contract in the source is: it returns either a decoded JSON dict or an
  error string, never both;
* observable effects (API calls, `time.sleep`) are recorded in an event
  trace.

Python strings are manipulated through the primitives below, which work on
the underlying character lists so that every operation is structurally
recursive and evaluable by the kernel.
-/

set_option maxHeartbeats 1000000

/-- `pat` is a prefix of `s` (Python `str.startswith` on char lists). -/
def isPrefixList : List Char → List Char → Bool
  | [], _ => true
  | _ :: _, [] => false
  | a :: as, b :: bs => a == b && isPrefixList as bs

/-- `sub` occurs somewhere inside `s` (Python `sub in s` on char lists). -/
def containsSub (sub : List Char) : List Char → Bool
  | [] => sub.isEmpty
  | c :: rest => isPrefixList sub (c :: rest) || containsSub sub rest

/-- Python `sub in s` for strings. -/
def strContains (s sub : String) : Bool :=
  containsSub sub.data s.data

/-- Python `s.split(sep)` for a one-character separator, on char lists. -/
def splitCharList (sep : Char) : List Char → List (List Char)
  | [] => [[]]
  | c :: rest =>
    match splitCharList sep rest with
    | [] => [[]]
    | h :: t => if c == sep then [] :: h :: t else (c :: h) :: t

/-- Python `s.split(sep)` for a one-character separator. -/
def pySplitChar (s : String) (sep : Char) : List String :=
  (splitCharList sep s.data).map String.mk

/-- Replacement worker for `pyReplace`; the fuel only bounds the number of
    steps and is instantiated with the length of the subject string. -/
def replaceAux (pat repl : List Char) : Nat → List Char → List Char
  | _, [] => []
  | 0, s => s
  | fuel + 1, c :: rest =>
    if isPrefixList pat (c :: rest) then
      repl ++ replaceAux pat repl fuel (List.drop (pat.length - 1) rest)
    else
      c :: replaceAux pat repl fuel rest

/-- Python `s.replace(pat, repl)`: every non-overlapping occurrence is
    replaced, scanning left to right.  The source only calls it with the
    nonempty literals "요약:", "분류:" and "근거:", so the empty-pattern
    case just returns the string. -/
def pyReplace (s pat repl : String) : String :=
  if pat.isEmpty then s
  else String.mk (replaceAux pat.data repl.data s.data.length s.data)

/-- The characters removed by Python `str.strip()`. -/
def pySpace (c : Char) : Bool :=
  c == ' ' || c == '\t' || c == '\n' || c == '\r' || c == Char.ofNat 11 || c == Char.ofNat 12

/-- Python `s.strip()`. -/
def pyStrip (s : String) : String :=
  String.mk (((s.data.dropWhile pySpace).reverse.dropWhile pySpace).reverse)

/-- Python `s[:n]` (slicing counts code points). -/
def pySlice (s : String) (n : Nat) : String :=
  String.mk (s.data.take n)

/-- Python `len(s)` (code points). -/
def pyLen (s : String) : Nat :=
  s.data.length

/-- Python `s.startswith(pre)`. -/
def pyStartsWith (s pre : String) : Bool :=
  isPrefixList pre.data s.data

/-- Python `s.endswith(suf)`. -/
def pyEndsWith (s suf : String) : Bool :=
  isPrefixList suf.data.reverse s.data.reverse

/-- Values produced by Python's `json.loads`. -/
inductive PyJson where
  | obj (fields : List (String × PyJson))
  | arr (elems : List PyJson)
  | str (s : String)
  | num (n : Int)
  | bool (b : Bool)
  | null

/-- Python `dict.get(key, dflt)` on the association list produced by
    `json.loads`; a later duplicate key overwrites an earlier one, so the
    last matching pair wins. -/
def dictGet (fields : List (String × PyJson)) (key : String) (dflt : PyJson) : PyJson :=
  match (fields.filter fun p => p.1 == key).getLast? with
  | some p => p.2
  | none => dflt

/-- Python `key in dict`. -/
def dictHasKey (fields : List (String × PyJson)) (key : String) : Bool :=
  fields.any fun p => p.1 == key

/-- Python `dict[key]` at the call sites below, which only subscript a key
    whose presence was just checked (`PyJson.null` is returned on the
    unreachable missing-key path). -/
def dictItem (fields : List (String × PyJson)) (key : String) : PyJson :=
  dictGet fields key PyJson.null

/-- Python exceptions that the handlers in the source distinguish. -/
inductive PyExc where
  | valueError (msg : String)
  | jsonDecodeError
  | attributeError
  | indexError
  | typeError (msg : String)
  deriving DecidableEq

/-- Python `str(e)` for the exceptions above (the attribute / index / type
    error messages abbreviate CPython wording; no claim depends on their
    exact text). -/
def excStr : PyExc → String
  | .valueError m => m
  | .jsonDecodeError => "Expecting value: line 1 column 1 (char 0)"
  | .attributeError => "object has no attribute get"
  | .indexError => "list index out of range"
  | .typeError m => m

/-- Python values as returned by `fetch_article_content`. -/
inductive PyVal where
  | str (s : String)
  | int (n : Nat)
  | tuple (vs : List PyVal)

/-- The value built on line 23 of src/utils.py,
    `return content, len(content) if content else ("Content not found", 0)`,
    as Python's grammar actually parses it: the conditional expression is
    the second tuple component, so the returned value is always a pair
    whose first component is `content`. -/
def fetchReturnValue (content : String) : PyVal :=
  PyVal.tuple [PyVal.str content,
    if content.isEmpty then
      PyVal.tuple [PyVal.str "Content not found", PyVal.int 0]
    else
      PyVal.int (pyLen content)]

/-- src/utils.py lines 27-40 (`process_response_content`).  `jl` is the
    environment's `json.loads`; `none` models a raised JSONDecodeError,
    which the function converts into a ValueError.  The argument is the
    value found at `response.result.message.content`, which the batch
    caller never checks to be a string; on a non-string, `json.loads`
    raises a TypeError that escapes this function. -/
def process_response_content (jl : String → Option PyJson) (result_content : PyJson) :
    Except PyExc (PyJson × PyJson × PyJson) :=
  match result_content with
  | PyJson.str s =>
    match jl s with
    | none => .error (.valueError "Unexpected content format: Not a valid JSON")
    | some (PyJson.obj fields) =>
        .ok (dictGet fields "요약" (PyJson.str ""),
             dictGet fields "분류" (PyJson.str ""),
             dictGet fields "근거" (PyJson.str ""))
    | some _ => .error .attributeError
  | _ => .error (.typeError "the JSON object must be str, bytes or bytearray")

/-- The inline response parsing of `process_single_row`, src/utils.py
    lines 399-411: a body that starts with \x7b and ends with \x7d is JSON
    decoded and read with `dict.get` defaults; any other body is split on
    newlines and read at the fixed line offsets 0, 2 and 4 (reading a
    missing offset raises an IndexError, exactly as `lines[2]` or
    `lines[4]` would). -/
def singleRowParse (jl : String → Option PyJson) (result_content : String) :
    Except PyExc (PyJson × PyJson × PyJson) :=
  if pyStartsWith result_content "\x7b" && pyEndsWith result_content "\x7d" then
    match jl result_content with
    | none => .error .jsonDecodeError
    | some (PyJson.obj fields) =>
        .ok (dictGet fields "요약" (PyJson.str ""),
             dictGet fields "분류" (PyJson.str ""),
             dictGet fields "근거" (PyJson.str ""))
    | some _ => .error .attributeError
  else
    match (pySplitChar result_content '\n').get? 0,
          (pySplitChar result_content '\n').get? 2,
          (pySplitChar result_content '\n').get? 4 with
    | some l0, some l2, some l4 =>
        .ok (PyJson.str (pyStrip (pyReplace l0 "요약:" "")),
             PyJson.str (pyStrip (pyReplace l2 "분류:" "")),
             PyJson.str (pyStrip (pyReplace l4 "근거:" "")))
    | _, _, _ => .error .indexError

/-- One input dataframe row: exactly the columns the source reads. -/
structure Row where
  docid : Int
  category : String
  title : String
  link : String
  content : String
  len_context : Int
  label : String

/-- A chat message, as assembled on lines 106-109 / 246-249. -/
structure Message where
  role : String
  content : String
  deriving DecidableEq

/-- Outcome of `call_clova_api` (lines 461-505): the function returns
    either a decoded JSON dict or an error string, never both, so the pair
    `(response_json, error)` is a sum. -/
inductive ApiResult where
  | ok (response : List (String × PyJson))
  | err (msg : String)

/-- Instrumentation of the observable effects: API calls (tagged with the
    docid of the row being processed and the call's outcome) and
    `time.sleep` with its duration in seconds. -/
inductive Event where
  | apiCall (docid : Int) (res : ApiResult)
  | sleep (seconds : Nat)

/-- One appended results record (lines 131-142 / 296-307). -/
structure ResultEntry where
  docid : Int
  category : String
  title : String
  link : String
  content : String
  len_content : Int
  label : String
  pred : PyJson
  reason : PyJson
  summary : PyJson

/-- One appended error record (docid, category, errors; the wall-clock
    `time` column is environment output and is not modelled). -/
structure ErrorEntry where
  docid : Int
  category : String
  errors : String

/-- Lines 99-104 / 240-244 / 372-377: the user context, truncated to its
    first 6500 code points when the stored `len_context` column exceeds
    6500. -/
def truncContext (row : Row) : String :=
  if row.len_context > 6500 then pySlice row.content 6500 else row.content

/-- The message list passed to `call_clova_api` for one row. -/
def rowMessages (prompt : String) (row : Row) : List Message :=
  [⟨"system", prompt⟩, ⟨"user", truncContext row⟩]

/-- Python `key in x` for an arbitrary JSON value: dict keys, list
    elements, substring on strings; iterating any other value raises a
    TypeError. -/
def pyHasKey (x : PyJson) (key : String) : Except String Bool :=
  match x with
  | PyJson.obj fields => .ok (dictHasKey fields key)
  | PyJson.arr elems =>
      .ok (elems.any fun e =>
        match e with
        | PyJson.str s => s == key
        | _ => false)
  | PyJson.str s => .ok (strContains s key)
  | _ => .error "argument of type is not iterable"

/-- Python `x[key]` for a string key (TypeError on non-dicts). -/
def pySubscript (x : PyJson) (key : String) : Except String PyJson :=
  match x with
  | PyJson.obj fields =>
      if dictHasKey fields key then .ok (dictItem fields key)
      else .error ("KeyError: " ++ key)
  | _ => .error "indices must be integers"

/-- Python `x.get(key, dflt)` (AttributeError when `x` is not a dict). -/
def pyGetDefault (x : PyJson) (key : String) (dflt : PyJson) : Except String PyJson :=
  match x with
  | PyJson.obj fields => .ok (dictGet fields key dflt)
  | _ => .error "object has no attribute get"

/-- The body of the per-row try block of `process_dataframe`
    (lines 98-152).  `.ok` is the entry appended to `results`; `.error`
    carries the string recorded in the error log (every raised exception
    is caught by the per-row handler on line 146).  The event list records
    the API call made on that path. -/
def processRowE (jl : String → Option PyJson) (api : List Message → ApiResult)
    (category prompt : String) (row : Row) : Except String ResultEntry × List Event :=
  let res := api (rowMessages prompt row)
  let out : Except String ResultEntry :=
    match res with
    | .err e => .error e
    | .ok response =>
      if !dictHasKey response "result" then
        .error "Unexpected response format: \x27result\x27 or \x27message\x27 key missing"
      else
        match pyHasKey (dictItem response "result") "message" with
        | .error m => .error m
        | .ok hasMsg =>
          if !hasMsg then
            .error "Unexpected response format: \x27result\x27 or \x27message\x27 key missing"
          else
            match pySubscript (dictItem response "result") "message" with
            | .error m => .error m
            | .ok msgVal =>
              match pyGetDefault msgVal "content" (PyJson.str "") with
              | .error m => .error m
              | .ok result_content =>
                match process_response_content jl result_content with
                | .ok (summary, pred, reason) =>
                    .ok ⟨row.docid, category, row.title, row.link, row.content,
                         row.len_context, row.label, pred, reason, summary⟩
                | .error (.valueError m) =>
                    .error ("Failed to process content for docid " ++ toString row.docid
                      ++ " in " ++ category ++ " - " ++ m)
                | .error e => .error (excStr e)
  (out, [Event.apiCall row.docid res])

/-- Output of `process_dataframe`, plus the recorded event trace. -/
structure BatchOutput where
  results : List ResultEntry
  errors : List ErrorEntry
  trace : List Event

/-- The row loop of `process_dataframe` (lines 97-156): each row appends
    to exactly one of `results` / `errors`, and `time.sleep(6)` on
    line 156 runs after the try and except blocks of every iteration. -/
def processLoop (jl : String → Option PyJson) (api : List Message → ApiResult)
    (category prompt : String) : List Row → BatchOutput
  | [] => ⟨[], [], []⟩
  | row :: rest =>
    let p := processRowE jl api category prompt row
    let b := processLoop jl api category prompt rest
    match p.1 with
    | .ok entry => ⟨entry :: b.results, b.errors, p.2 ++ Event.sleep 6 :: b.trace⟩
    | .error msg =>
        ⟨b.results, ⟨row.docid, category, msg⟩ :: b.errors, p.2 ++ Event.sleep 6 :: b.trace⟩

/-- src/utils.py lines 92-161 (`process_dataframe`): filter the dataframe
    to the requested category, then run the row loop. -/
def process_dataframe (jl : String → Option PyJson) (api : List Message → ApiResult)
    (df : List Row) (category prompt : String) : BatchOutput :=
  processLoop jl api category prompt (df.filter fun r => r.category == category)

/-- The largest positional index of a list element smaller than `d`
    (lines 310-312 compute `result_df[result_df[\x27docid\x27] < d].index.max()`
    on a freshly reset positional index, which is exactly this value;
    `none` models the NaN produced on an empty selection). -/
def lastIdxBelow (d : Int) : List Int → Option Nat
  | [] => none
  | x :: rest =>
    match lastIdxBelow d rest with
    | some m => some (m + 1)
    | none => if x < d then some 0 else none

/-- Lines 310-312: the insertion index is one past the last row with a
    smaller docid, and 0 when there is none (the `pd.isna` branch). -/
def insertPosition (docids : List Int) (d : Int) : Nat :=
  match lastIdxBelow d docids with
  | none => 0
  | some m => m + 1

/-- Lines 314-318: `pd.concat` of `iloc[:idx]`, the new row and
    `iloc[idx:]`. -/
def retryInsert (result : List ResultEntry) (entry : ResultEntry) : List ResultEntry :=
  let idx := insertPosition (result.map fun r => r.docid) entry.docid
  result.take idx ++ entry :: result.drop idx

/-- The per-error-row body of `retry_failed_rows` (lines 215-350).  `.ok`
    is the recovered result row; `.error` is the entry appended to
    `new_errors`.  The events record the API call and the sleeps actually
    executed on that path: the no-matching-row branch and the 40005/40006
    branch leave the loop body via `continue`, which skips the trailing
    `time.sleep(retry_wait_time)` on line 350, while the 429 branch sleeps
    once on line 257 and then again on line 350 after its exception is
    handled. -/
def retryRow (jl : String → Option PyJson) (api : List Message → ApiResult)
    (prompts : String → String) (df : List Row) (e : ErrorEntry) :
    Except ErrorEntry ResultEntry × List Event :=
  match (df.filter fun r => r.docid == e.docid && r.category == e.category).head? with
  | none =>
      (.error ⟨e.docid, e.category,
        "No matching row found for docid " ++ toString e.docid
          ++ " and category " ++ e.category⟩, [])
  | some row =>
    let res := api (rowMessages (prompts row.category) row)
    match res with
    | .err error =>
      if strContains error "429" then
        (.error ⟨e.docid, e.category, "API 호출 실패: 429, Too Many Requests"⟩,
         [Event.apiCall row.docid res, Event.sleep 6, Event.sleep 6])
      else if strContains error "40005" || strContains error "40006" then
        (.error ⟨e.docid, e.category, error⟩, [Event.apiCall row.docid res])
      else
        (.error ⟨e.docid, e.category, error⟩,
         [Event.apiCall row.docid res, Event.sleep 6])
    | .ok response =>
      let out : Except ErrorEntry ResultEntry :=
        if response.isEmpty then
          .error ⟨e.docid, e.category, "Received empty response from the API"⟩
        else if !dictHasKey response "result" then
          .error ⟨e.docid, e.category,
            "Unexpected response format: \x27result\x27 or \x27message\x27 key missing"⟩
        else
          match pyHasKey (dictItem response "result") "message" with
          | .error m => .error ⟨e.docid, e.category, m⟩
          | .ok hasMsg =>
            if !hasMsg then
              .error ⟨e.docid, e.category,
                "Unexpected response format: \x27result\x27 or \x27message\x27 key missing"⟩
            else
              match pySubscript (dictItem response "result") "message" with
              | .error m => .error ⟨e.docid, e.category, m⟩
              | .ok msgVal =>
                match pyGetDefault msgVal "content" (PyJson.str "") with
                | .error m => .error ⟨e.docid, e.category, m⟩
                | .ok result_content =>
                  match result_content with
                  | PyJson.str s =>
                    match process_response_content jl (PyJson.str s) with
                    | .ok (summary, pred, reason) =>
                        .ok ⟨row.docid, row.category, row.title, row.link, row.content,
                             row.len_context, row.label, pred, reason, summary⟩
                    | .error exc => .error ⟨e.docid, e.category, excStr exc⟩
                  | _ => .error ⟨e.docid, e.category, "Unexpected content format"⟩
      (out, [Event.apiCall row.docid res, Event.sleep 6])

/-- Output of one pass of the retry while loop. -/
structure PassOutput where
  result : List ResultEntry
  errors : List ErrorEntry
  trace : List Event

/-- One pass of the while loop (lines 211-356): the error rows are scanned
    in order; a recovered row is inserted into the threaded result list
    immediately (so later insertions in the same pass see it), every other
    row builds one `new_errors` entry. -/
def retryPass (jl : String → Option PyJson) (api : List Message → ApiResult)
    (prompts : String → String) (df : List Row) :
    List ErrorEntry → List ResultEntry → PassOutput
  | [], result => ⟨result, [], []⟩
  | e :: rest, result =>
    let rr := retryRow jl api prompts df e
    match rr.1 with
    | .ok entry =>
      let out := retryPass jl api prompts df rest (retryInsert result entry)
      ⟨out.result, out.errors, rr.2 ++ out.trace⟩
    | .error newErr =>
      let out := retryPass jl api prompts df rest result
      ⟨out.result, newErr :: out.errors, rr.2 ++ out.trace⟩

/-- Output of `retry_failed_rows`, plus the number of executed passes and
    the recorded event trace. -/
structure RetryOutput where
  result : List ResultEntry
  errors : List ErrorEntry
  passes : Nat
  trace : List Event

/-- The while loop of `retry_failed_rows` (line 207): `passes` is the
    running `retry_count` and the fuel is `max_retries - retry_count`.
    The API oracle takes the attempt number, since the same row may be
    called once per pass. -/
def retryGo (jl : String → Option PyJson) (api : Nat → List Message → ApiResult)
    (prompts : String → String) (df : List Row) (passes : Nat) :
    Nat → List ErrorEntry → List ResultEntry → RetryOutput
  | 0, errors, result => ⟨result, errors, passes, []⟩
  | fuel + 1, errors, result =>
    if errors.isEmpty then ⟨result, errors, passes, []⟩
    else
      let p := retryPass jl (api (passes + 1)) prompts df errors result
      let out := retryGo jl api prompts df (passes + 1) fuel p.errors p.result
      ⟨out.result, out.errors, out.passes, p.trace ++ out.trace⟩

/-- src/utils.py lines 163-361 (`retry_failed_rows`); `max_retries`
    defaults to 3 in the source.  The `all_logs` list only feeds the
    returned `logs_df` print log and is not modelled. -/
def retry_failed_rows (jl : String → Option PyJson) (api : Nat → List Message → ApiResult)
    (prompts : String → String) (df : List Row) (errors_df : List ErrorEntry)
    (result_df : List ResultEntry) (max_retries : Nat) : RetryOutput :=
  retryGo jl api prompts df 0 max_retries errors_df result_df

/-- The retry error classification of lines 253-277 that leaves the loop
    body via `continue`: a non-429 error mentioning 40005 or 40006. -/
def skipOutcome : ApiResult → Bool
  | .ok _ => false
  | .err msg => !strContains msg "429" && (strContains msg "40005" || strContains msg "40006")

/-- Every API call in the trace is immediately followed by a six second
    sleep. -/
def everyCallSlept : List Event → Bool
  | [] => true
  | Event.apiCall _ _ :: rest =>
    (match rest with
     | Event.sleep 6 :: _ => true
     | _ => false) && everyCallSlept rest
  | Event.sleep _ :: rest => everyCallSlept rest

/-- Every API call in the trace whose outcome is not classified as a retry
    skip is immediately followed by a six second sleep. -/
def nonSkipCallSlept : List Event → Bool
  | [] => true
  | Event.apiCall _ r :: rest =>
    (skipOutcome r ||
      match rest with
      | Event.sleep 6 :: _ => true
      | _ => false) && nonSkipCallSlept rest
  | Event.sleep _ :: rest => nonSkipCallSlept rest

/-! ### Helper lemmas -/

theorem retryInsert_length (result : List ResultEntry) (entry : ResultEntry) :
    (retryInsert result entry).length = result.length + 1 := by
  simp [retryInsert]
  omega

theorem processLoop_conservation (jl : String → Option PyJson)
    (api : List Message → ApiResult) (category prompt : String) :
    ∀ rows : List Row,
      (processLoop jl api category prompt rows).results.length
        + (processLoop jl api category prompt rows).errors.length = rows.length := by
  intro rows
  induction rows with
  | nil => simp [processLoop]
  | cons row rest ih =>
    simp only [processLoop]
    cases h : (processRowE jl api category prompt row).1 with
    | ok entry => simp [h, ih]; omega
    | error msg => simp [h, ih]; omega

theorem retryPass_conservation (jl : String → Option PyJson)
    (api : List Message → ApiResult) (prompts : String → String) (df : List Row) :
    ∀ (errors : List ErrorEntry) (result : List ResultEntry),
      (retryPass jl api prompts df errors result).result.length
        + (retryPass jl api prompts df errors result).errors.length
        = result.length + errors.length := by
  intro errors
  induction errors with
  | nil => intro result; simp [retryPass]
  | cons e rest ih =>
    intro result
    simp only [retryPass]
    cases h : (retryRow jl api prompts df e).1 with
    | ok entry =>
      have := ih (retryInsert result entry)
      simp only [h]
      simp [retryInsert_length] at this
      simp [this]
      omega
    | error newErr =>
      have := ih result
      simp only [h]
      simp [this]
      omega

theorem retryGo_conservation (jl : String → Option PyJson)
    (api : Nat → List Message → ApiResult) (prompts : String → String) (df : List Row) :
    ∀ (fuel passes : Nat) (errors : List ErrorEntry) (result : List ResultEntry),
      (retryGo jl api prompts df passes fuel errors result).result.length
        + (retryGo jl api prompts df passes fuel errors result).errors.length
        = result.length + errors.length := by
  intro fuel
  induction fuel with
  | zero => intro passes errors result; simp [retryGo]
  | succ n ih =>
    intro passes errors result
    simp only [retryGo]
    by_cases h : errors.isEmpty
    · simp [h]
    · simp [h]
      have h1 := ih (passes + 1)
        (retryPass jl (api (passes + 1)) prompts df errors result).errors
        (retryPass jl (api (passes + 1)) prompts df errors result).result
      have h2 := retryPass_conservation jl (api (passes + 1)) prompts df errors result
      omega

/-- C1: for every input dataframe the batch processor produces exactly one
    results entry or one error entry per filtered row, each retry pass
    moves every error row into exactly one of the result list or the new
    error list, and after `retry_failed_rows` exhausts its attempts the
    result count plus the unresolved error count still equals the number
    of input rows of the processed category. -/
theorem pipeline_row_conservation (jl jl2 : String → Option PyJson)
    (api : List Message → ApiResult) (api2 : Nat → List Message → ApiResult)
    (prompts : String → String) (df df2 : List Row) (category prompt : String)
    (m : Nat) :
    (process_dataframe jl api df category prompt).results.length
        + (process_dataframe jl api df category prompt).errors.length
      = (df.filter fun r => r.category == category).length
    ∧ (∀ (errors : List ErrorEntry) (result : List ResultEntry) (k : Nat),
        (retryPass jl2 (api2 k) prompts df2 errors result).result.length
          + (retryPass jl2 (api2 k) prompts df2 errors result).errors.length
          = result.length + errors.length)
    ∧ (retry_failed_rows jl2 api2 prompts df2
          (process_dataframe jl api df category prompt).errors
          (process_dataframe jl api df category prompt).results m).result.length
        + (retry_failed_rows jl2 api2 prompts df2
            (process_dataframe jl api df category prompt).errors
            (process_dataframe jl api df category prompt).results m).errors.length
      = (df.filter fun r => r.category == category).length := by
  refine ⟨processLoop_conservation jl api category prompt _, ?_, ?_⟩
  · intro errors result k
    exact retryPass_conservation jl2 (api2 k) prompts df2 errors result
  · have h1 := retryGo_conservation jl2 api2 prompts df2 m 0
      (process_dataframe jl api df category prompt).errors
      (process_dataframe jl api df category prompt).results
    have h2 := processLoop_conservation jl api category prompt
      (df.filter fun r => r.category == category)
    simp only [retry_failed_rows]
    simp only [process_dataframe] at h1 h2 ⊢
    omega

theorem retryGo_pass_bound (jl : String → Option PyJson)
    (api : Nat → List Message → ApiResult) (prompts : String → String) (df : List Row) :
    ∀ (fuel passes : Nat) (errors : List ErrorEntry) (result : List ResultEntry),
      (retryGo jl api prompts df passes fuel errors result).passes ≤ passes + fuel
      ∧ ((retryGo jl api prompts df passes fuel errors result).errors = []
          ∨ (retryGo jl api prompts df passes fuel errors result).passes = passes + fuel) := by
  intro fuel
  induction fuel with
  | zero =>
    intro passes errors result
    simp [retryGo]
  | succ n ih =>
    intro passes errors result
    simp only [retryGo]
    by_cases h : errors.isEmpty
    · simp [h]
      exact List.isEmpty_iff.mp h
    · simp [h]
      have := ih (passes + 1)
        (retryPass jl (api (passes + 1)) prompts df errors result).errors
        (retryPass jl (api (passes + 1)) prompts df errors result).result
      constructor
      · omega
      · rcases this.2 with h2 | h2
        · exact Or.inl h2
        · right; omega

/-- C7: `retry_failed_rows` performs at most `max_retries` passes and
    terminates; it stops with either an exhausted budget or an empty error
    set, and an initially empty error set is returned untouched with zero
    passes. -/
theorem retry_pass_bound (jl : String → Option PyJson)
    (api : Nat → List Message → ApiResult) (prompts : String → String)
    (df : List Row) (errors : List ErrorEntry) (result : List ResultEntry) (m : Nat) :
    (retry_failed_rows jl api prompts df errors result m).passes ≤ m
    ∧ ((retry_failed_rows jl api prompts df errors result m).errors = []
        ∨ (retry_failed_rows jl api prompts df errors result m).passes = m)
    ∧ (errors = [] →
        retry_failed_rows jl api prompts df errors result m = ⟨result, [], 0, []⟩) := by
  have h := retryGo_pass_bound jl api prompts df m 0 errors result
  refine ⟨by simpa [retry_failed_rows] using h.1, by simpa [retry_failed_rows] using h.2, ?_⟩
  intro he
  subst he
  cases m with
  | zero => simp [retry_failed_rows, retryGo]
  | succ n => simp [retry_failed_rows, retryGo]

/-- C2 (code bug): on empty extracted content, line 23 returns the nested
    pair ("", ("Content not found", 0)) — Python parses the line as a
    2-tuple whose second component is the conditional expression — instead
    of the documented flat pair ("Content not found", 0); on non-empty
    content it returns the content paired with its length. -/
theorem fetch_content_empty_return_shape :
    fetchReturnValue "" =
      PyVal.tuple [PyVal.str "",
        PyVal.tuple [PyVal.str "Content not found", PyVal.int 0]]
    ∧ fetchReturnValue "" ≠ PyVal.tuple [PyVal.str "Content not found", PyVal.int 0]
    ∧ fetchReturnValue "abc" = PyVal.tuple [PyVal.str "abc", PyVal.int 3] := by
  refine ⟨rfl, ?_, rfl⟩
  intro h
  have h2 : "" = "Content not found" :=
    congrArg (fun v => match v with | PyVal.tuple (PyVal.str s :: _) => s | _ => "x") h
  exact absurd h2 (by decide)

theorem processRowE_trace (jl : String → Option PyJson) (api : List Message → ApiResult)
    (category prompt : String) (row : Row) :
    (processRowE jl api category prompt row).2
      = [Event.apiCall row.docid (api (rowMessages prompt row))] := rfl

theorem everyCallSlept_sleep (n : Nat) (t : List Event) :
    everyCallSlept (Event.sleep n :: t) = everyCallSlept t := rfl

theorem nonSkipCallSlept_sleep (n : Nat) (t : List Event) :
    nonSkipCallSlept (Event.sleep n :: t) = nonSkipCallSlept t := rfl

theorem everyCallSlept_call_sleep (d : Int) (r : ApiResult) (t : List Event) :
    everyCallSlept (Event.apiCall d r :: Event.sleep 6 :: t)
      = everyCallSlept (Event.sleep 6 :: t) := by
  simp [everyCallSlept]

theorem nonSkipCallSlept_call_sleep (d : Int) (r : ApiResult) (t : List Event) :
    nonSkipCallSlept (Event.apiCall d r :: Event.sleep 6 :: t)
      = nonSkipCallSlept (Event.sleep 6 :: t) := by
  simp [nonSkipCallSlept]

theorem nonSkipCallSlept_skip_call (d : Int) (r : ApiResult) (t : List Event)
    (h : skipOutcome r = true) :
    nonSkipCallSlept (Event.apiCall d r :: t) = nonSkipCallSlept t := by
  simp [nonSkipCallSlept, h]

theorem processLoop_trace_slept (jl : String → Option PyJson)
    (api : List Message → ApiResult) (category prompt : String) :
    ∀ (rows : List Row) (t : List Event),
      everyCallSlept ((processLoop jl api category prompt rows).trace ++ t)
        = everyCallSlept t := by
  intro rows
  induction rows with
  | nil => intro t; simp [processLoop]
  | cons row rest ih =>
    intro t
    simp only [processLoop]
    cases h : (processRowE jl api category prompt row).1 with
    | ok entry =>
      simp only [h, processRowE_trace]
      show everyCallSlept (Event.apiCall row.docid (api (rowMessages prompt row))
        :: Event.sleep 6 :: ((processLoop jl api category prompt rest).trace ++ t))
        = everyCallSlept t
      rw [everyCallSlept_call_sleep, everyCallSlept_sleep]
      exact ih t
    | error msg =>
      simp only [h, processRowE_trace]
      show everyCallSlept (Event.apiCall row.docid (api (rowMessages prompt row))
        :: Event.sleep 6 :: ((processLoop jl api category prompt rest).trace ++ t))
        = everyCallSlept t
      rw [everyCallSlept_call_sleep, everyCallSlept_sleep]
      exact ih t

theorem retryRow_trace_slept (jl : String → Option PyJson)
    (api : List Message → ApiResult) (prompts : String → String) (df : List Row)
    (e : ErrorEntry) (t : List Event) :
    nonSkipCallSlept ((retryRow jl api prompts df e).2 ++ t) = nonSkipCallSlept t := by
  unfold retryRow
  cases hm : (df.filter fun r => r.docid == e.docid && r.category == e.category).head? with
  | none => simp
  | some row =>
    cases hr : api (rowMessages (prompts row.category) row) with
    | ok response =>
      simp only [hr]
      show nonSkipCallSlept (Event.apiCall row.docid (ApiResult.ok response)
        :: Event.sleep 6 :: t) = nonSkipCallSlept t
      rw [nonSkipCallSlept_call_sleep, nonSkipCallSlept_sleep]
    | err error =>
      simp only [hr]
      cases h429 : strContains error "429" with
      | true =>
        rw [if_pos rfl]
        show nonSkipCallSlept (Event.apiCall row.docid (ApiResult.err error)
          :: Event.sleep 6 :: Event.sleep 6 :: t) = nonSkipCallSlept t
        rw [nonSkipCallSlept_call_sleep, nonSkipCallSlept_sleep, nonSkipCallSlept_sleep]
      | false =>
        rw [if_neg (by simp)]
        cases hsk : (strContains error "40005" || strContains error "40006") with
        | true =>
          rw [if_pos rfl]
          show nonSkipCallSlept (Event.apiCall row.docid (ApiResult.err error) :: t)
            = nonSkipCallSlept t
          rw [nonSkipCallSlept_skip_call]
          simp [skipOutcome, h429, hsk]
        | false =>
          rw [if_neg (by simp)]
          show nonSkipCallSlept (Event.apiCall row.docid (ApiResult.err error)
            :: Event.sleep 6 :: t) = nonSkipCallSlept t
          rw [nonSkipCallSlept_call_sleep, nonSkipCallSlept_sleep]

theorem retryPass_trace_slept (jl : String → Option PyJson)
    (api : List Message → ApiResult) (prompts : String → String) (df : List Row) :
    ∀ (errors : List ErrorEntry) (result : List ResultEntry) (t : List Event),
      nonSkipCallSlept ((retryPass jl api prompts df errors result).trace ++ t)
        = nonSkipCallSlept t := by
  intro errors
  induction errors with
  | nil => intro result t; simp [retryPass]
  | cons e rest ih =>
    intro result t
    simp only [retryPass]
    cases h : (retryRow jl api prompts df e).1 with
    | ok entry =>
      simp only [h]
      rw [List.append_assoc, retryRow_trace_slept]
      exact ih _ t
    | error newErr =>
      simp only [h]
      rw [List.append_assoc, retryRow_trace_slept]
      exact ih _ t

theorem retryGo_trace_slept (jl : String → Option PyJson)
    (api : Nat → List Message → ApiResult) (prompts : String → String) (df : List Row) :
    ∀ (fuel passes : Nat) (errors : List ErrorEntry) (result : List ResultEntry)
      (t : List Event),
      nonSkipCallSlept ((retryGo jl api prompts df passes fuel errors result).trace ++ t)
        = nonSkipCallSlept t := by
  intro fuel
  induction fuel with
  | zero => intro passes errors result t; simp [retryGo]
  | succ n ih =>
    intro passes errors result t
    simp only [retryGo]
    by_cases h : errors.isEmpty
    · simp [h]
    · simp only [h, if_false, Bool.false_eq_true]
      rw [List.append_assoc, retryPass_trace_slept]
      exact ih _ _ _ t

/-- C6 amended: a six second sleep immediately follows every API call of
    the batch processor, and every API call of the retry driver except
    those whose error is classified 40005/40006 (not 429) — that branch
    leaves the loop body via `continue`, skipping the trailing sleep. -/
theorem sleep_follows_calls (jl jl2 : String → Option PyJson)
    (api : List Message → ApiResult) (api2 : Nat → List Message → ApiResult)
    (prompts : String → String) (df df2 : List Row) (category prompt : String)
    (errors : List ErrorEntry) (result : List ResultEntry) (m : Nat) :
    everyCallSlept (process_dataframe jl api df category prompt).trace = true
    ∧ nonSkipCallSlept (retry_failed_rows jl2 api2 prompts df2 errors result m).trace
        = true := by
  constructor
  · have h := processLoop_trace_slept jl api category prompt
      (df.filter fun r => r.category == category) []
    simpa [process_dataframe] using h
  · have h := retryGo_trace_slept jl2 api2 prompts df2 m 0 errors result []
    simpa [retry_failed_rows] using h

def jl0 : String → Option PyJson := fun _ => none

def prompts0 : String → String := fun _ => "p"

/-- A concrete row matching `skipErr` below. -/
def skipRow : Row := ⟨7, "난이도", "t", "l", "abc", 3, "lab"⟩

def skipErr : ErrorEntry := ⟨7, "난이도", "prev"⟩

/-- An API oracle that fails every call with a 40005-classified error. -/
def api40005 : Nat → List Message → ApiResult :=
  fun _ _ => ApiResult.err "API 호출 실패: 40005, content policy"

/-- C6 counterexample: retrying a row whose API call fails with a
    40005-classified error produces a trace consisting of that single API
    call and no sleep at all — the claimed fixed delay after every call,
    success or failure, does not hold on this input. -/
theorem sleep_skipped_counterexample :
    (retry_failed_rows jl0 api40005 prompts0 [skipRow] [skipErr] [] 1).trace
      = [Event.apiCall 7 (ApiResult.err "API 호출 실패: 40005, content policy")]
    ∧ everyCallSlept
        (retry_failed_rows jl0 api40005 prompts0 [skipRow] [skipErr] [] 1).trace
      = false := ⟨rfl, rfl⟩

/-- C4 counterexample: with `max_retries = 3` and an API that always fails
    with a 40005-classified error, the single error row receives one API
    call on every one of the three passes — it is appended to `new_errors`
    by the skip branch and therefore re-attempted, not permanently
    excluded as the claim states. -/
theorem skip_error_reattempt_counterexample :
    ((retry_failed_rows jl0 api40005 prompts0 [skipRow] [skipErr] [] 3).trace.countP
        fun ev => match ev with | Event.apiCall _ _ => true | _ => false) = 3
    ∧ ¬(((retry_failed_rows jl0 api40005 prompts0 [skipRow] [skipErr] [] 3).trace.countP
        fun ev => match ev with | Event.apiCall _ _ => true | _ => false) ≤ 1) := by
  have h : ((retry_failed_rows jl0 api40005 prompts0 [skipRow] [skipErr] [] 3).trace.countP
      fun ev => match ev with | Event.apiCall _ _ => true | _ => false) = 3 := rfl
  exact ⟨h, by omega⟩

theorem retryRow_skip (jl : String → Option PyJson) (api : List Message → ApiResult)
    (prompts : String → String) (df : List Row) (row : Row) (rest : List Row)
    (e : ErrorEntry) (emsg : String)
    (hmatch : df.filter (fun r => r.docid == e.docid && r.category == e.category)
      = row :: rest)
    (happ : api (rowMessages (prompts row.category) row) = ApiResult.err emsg)
    (h429 : strContains emsg "429" = false)
    (hsk : (strContains emsg "40005" || strContains emsg "40006") = true) :
    retryRow jl api prompts df e
      = (.error ⟨e.docid, e.category, emsg⟩,
         [Event.apiCall row.docid (ApiResult.err emsg)]) := by
  unfold retryRow
  rw [hmatch]
  simp only [List.head?_cons]
  simp only [happ, h429, hsk]
  simp

theorem retryPass_single_skip (jl : String → Option PyJson)
    (api : List Message → ApiResult) (prompts : String → String) (df : List Row)
    (row : Row) (rest : List Row) (e : ErrorEntry) (emsg : String)
    (result : List ResultEntry)
    (hmatch : df.filter (fun r => r.docid == e.docid && r.category == e.category)
      = row :: rest)
    (happ : api (rowMessages (prompts row.category) row) = ApiResult.err emsg)
    (h429 : strContains emsg "429" = false)
    (hsk : (strContains emsg "40005" || strContains emsg "40006") = true) :
    retryPass jl api prompts df [e] result
      = ⟨result, [⟨e.docid, e.category, emsg⟩],
         [Event.apiCall row.docid (ApiResult.err emsg)]⟩ := by
  simp only [retryPass, retryRow_skip jl api prompts df row rest e emsg hmatch happ h429 hsk]
  simp

theorem retryGo_constant_skip (jl : String → Option PyJson)
    (api : Nat → List Message → ApiResult) (prompts : String → String)
    (df : List Row) (row : Row) (rest : List Row) (d : Int) (c emsg : String)
    (hmatch : df.filter (fun r => r.docid == d && r.category == c) = row :: rest)
    (happ : ∀ k, api k (rowMessages (prompts row.category) row) = ApiResult.err emsg)
    (h429 : strContains emsg "429" = false)
    (hsk : (strContains emsg "40005" || strContains emsg "40006") = true) :
    ∀ (fuel passes : Nat) (e : ErrorEntry) (result : List ResultEntry),
      e.docid = d → e.category = c →
      (retryGo jl api prompts df passes fuel [e] result).result = result
      ∧ (retryGo jl api prompts df passes fuel [e] result).passes = passes + fuel
      ∧ ((retryGo jl api prompts df passes fuel [e] result).trace.countP
          fun ev => match ev with | Event.apiCall _ _ => true | _ => false) = fuel
      ∧ (1 ≤ fuel →
          (retryGo jl api prompts df passes fuel [e] result).errors = [⟨d, c, emsg⟩])
      ∧ (fuel = 0 → (retryGo jl api prompts df passes fuel [e] result).errors = [e]) := by
  intro fuel
  induction fuel with
  | zero =>
    intro passes e result hed hec
    simp [retryGo]
  | succ n ih =>
    intro passes e result hed hec
    have hmatch2 : df.filter (fun r => r.docid == e.docid && r.category == e.category)
        = row :: rest := by rw [hed, hec]; exact hmatch
    have hpass := retryPass_single_skip jl (api (passes + 1)) prompts df row rest e emsg
      result hmatch2 (happ (passes + 1)) h429 hsk
    have hrec := ih (passes + 1) ⟨e.docid, e.category, emsg⟩ result hed hec
    simp only [retryGo, List.isEmpty_cons, if_false, Bool.false_eq_true, hpass]
    rcases hrec with ⟨hr1, hr2, hr3, hr4, hr5⟩
    refine ⟨hr1, by omega, ?_, ?_, by omega⟩
    · rw [List.countP_append, hr3]
      have h1 : ([Event.apiCall row.docid (ApiResult.err emsg)].countP
          fun ev => match ev with | Event.apiCall _ _ => true | _ => false) = 1 := rfl
      omega
    · intro _
      cases n with
      | zero =>
        have := hr5 rfl
        simpa [hed, hec] using this
      | succ k =>
        exact hr4 (by omega)

/-- C4 amended: a 40005/40006-classified error makes the row skip the rest
    of its loop body for the current pass (no parse, no insertion, no
    trailing sleep) and records it in `new_errors`, but the row is not
    excluded from later passes: while the API keeps returning such an
    error, the row is re-attempted with one API call on every pass up to
    the attempt budget, and it remains in the final error set. -/
theorem skip_error_rows_reattempted (jl : String → Option PyJson)
    (api : Nat → List Message → ApiResult) (prompts : String → String)
    (df : List Row) (row : Row) (rest : List Row) (d : Int) (c emsg : String)
    (e : ErrorEntry) (result : List ResultEntry) (m : Nat)
    (hmatch : df.filter (fun r => r.docid == d && r.category == c) = row :: rest)
    (happ : ∀ k, api k (rowMessages (prompts row.category) row) = ApiResult.err emsg)
    (h429 : strContains emsg "429" = false)
    (hsk : (strContains emsg "40005" || strContains emsg "40006") = true)
    (hed : e.docid = d) (hec : e.category = c) :
    (retry_failed_rows jl api prompts df [e] result m).result = result
    ∧ (retry_failed_rows jl api prompts df [e] result m).passes = m
    ∧ ((retry_failed_rows jl api prompts df [e] result m).trace.countP
        fun ev => match ev with | Event.apiCall _ _ => true | _ => false) = m
    ∧ (1 ≤ m → (retry_failed_rows jl api prompts df [e] result m).errors = [⟨d, c, emsg⟩]) := by
  have h := retryGo_constant_skip jl api prompts df row rest d c emsg
    hmatch happ h429 hsk m 0 e result hed hec
  exact ⟨h.1, by simpa [retry_failed_rows] using h.2.1,
    by simpa [retry_failed_rows] using h.2.2.1,
    by simpa [retry_failed_rows] using h.2.2.2.1⟩

/-- Witness for `skip_error_rows_reattempted` at a concrete input. -/
theorem skip_error_rows_reattempted_witness :
    ([skipRow].filter (fun r => r.docid == (7 : Int) && r.category == "난이도")
        = [skipRow])
    ∧ strContains "API 호출 실패: 40005, content policy" "429" = false
    ∧ (strContains "API 호출 실패: 40005, content policy" "40005"
        || strContains "API 호출 실패: 40005, content policy" "40006") = true
    ∧ (retry_failed_rows jl0 api40005 prompts0 [skipRow] [skipErr] [] 2).passes = 2 := by
  refine ⟨rfl, rfl, rfl, ?_⟩
  exact (skip_error_rows_reattempted jl0 api40005 prompts0 [skipRow] skipRow []
    7 "난이도" "API 호출 실패: 40005, content policy" skipErr [] 2
    rfl (fun _ => rfl) rfl rfl rfl rfl).2.1

theorem processLoop_append (jl : String → Option PyJson) (api : List Message → ApiResult)
    (category prompt : String) :
    ∀ (l1 l2 : List Row),
      (processLoop jl api category prompt (l1 ++ l2)).results
        = (processLoop jl api category prompt l1).results
          ++ (processLoop jl api category prompt l2).results
      ∧ (processLoop jl api category prompt (l1 ++ l2)).errors
        = (processLoop jl api category prompt l1).errors
          ++ (processLoop jl api category prompt l2).errors := by
  intro l1 l2
  induction l1 with
  | nil => simp [processLoop]
  | cons row rest ih =>
    simp only [List.cons_append, processLoop]
    cases h : (processRowE jl api category prompt row).1 with
    | ok entry => simp [h, ih]
    | error msg => simp [h, ih]

/-- C9: no per-row failure aborts the batch.  If a row's processing fails
    (any per-row exception is caught on line 146), `process_dataframe`
    records one error entry for it and continues: the results are exactly
    those of the same dataframe without the failing row, and the error log
    is the errors of the preceding rows, then the failing row's entry, then
    the errors of the following rows.  The embedding of
    `process_dataframe` is a total function, which captures that the
    per-row handler lets no exception escape the loop. -/
theorem batch_continues_past_errors (jl : String → Option PyJson)
    (api : List Message → ApiResult) (l1 l2 : List Row) (r : Row)
    (category prompt msg : String)
    (hfail : (processRowE jl api category prompt r).1 = .error msg)
    (hcat : r.category = category) :
    (process_dataframe jl api (l1 ++ r :: l2) category prompt).results
      = (process_dataframe jl api (l1 ++ l2) category prompt).results
    ∧ (process_dataframe jl api (l1 ++ r :: l2) category prompt).errors
      = (process_dataframe jl api l1 category prompt).errors
        ++ ⟨r.docid, category, msg⟩
          :: (process_dataframe jl api l2 category prompt).errors := by
  simp only [process_dataframe]
  have hfilter : (l1 ++ r :: l2).filter (fun x => x.category == category)
      = l1.filter (fun x => x.category == category)
        ++ r :: l2.filter (fun x => x.category == category) := by
    simp [List.filter_append, List.filter_cons, hcat]
  rw [hfilter, List.filter_append]
  have hcons1 : (processLoop jl api category prompt
      (r :: l2.filter (fun x => x.category == category))).results
      = (processLoop jl api category prompt
          (l2.filter (fun x => x.category == category))).results := by
    simp only [processLoop, hfail]
  have hcons2 : (processLoop jl api category prompt
      (r :: l2.filter (fun x => x.category == category))).errors
      = ⟨r.docid, category, msg⟩
        :: (processLoop jl api category prompt
            (l2.filter (fun x => x.category == category))).errors := by
    simp only [processLoop, hfail]
  constructor
  · rw [(processLoop_append jl api category prompt _ _).1,
      (processLoop_append jl api category prompt _ _).1, hcons1]
  · rw [(processLoop_append jl api category prompt _ _).2, hcons2]

/-- An API oracle that fails every call with an unclassified error. -/
def apiBoom : List Message → ApiResult := fun _ => ApiResult.err "boom"

/-- Witness for `batch_continues_past_errors` at a concrete input. -/
theorem batch_continues_past_errors_witness :
    (processRowE jl0 apiBoom "난이도" "p" skipRow).1 = .error "boom"
    ∧ skipRow.category = "난이도"
    ∧ (process_dataframe jl0 apiBoom ([] ++ skipRow :: []) "난이도" "p").results
        = (process_dataframe jl0 apiBoom ([] ++ []) "난이도" "p").results
    ∧ (process_dataframe jl0 apiBoom ([] ++ skipRow :: []) "난이도" "p").errors
        = (process_dataframe jl0 apiBoom [] "난이도" "p").errors
          ++ ⟨skipRow.docid, "난이도", "boom"⟩
            :: (process_dataframe jl0 apiBoom [] "난이도" "p").errors := by
  refine ⟨rfl, rfl, ?_, ?_⟩
  · exact (batch_continues_past_errors jl0 apiBoom [] [] skipRow "난이도" "p" "boom"
      rfl rfl).1
  · exact (batch_continues_past_errors jl0 apiBoom [] [] skipRow "난이도" "p" "boom"
      rfl rfl).2

/-- A row whose stored len_context (6500) understates its actual content
    length (6501 characters). -/
def mismatchRow : Row :=
  ⟨1, "난이도", "t", "l", String.mk (List.replicate 6501 'a'), 6500, "lab"⟩

/-- C5 counterexample: lines 99-104 key the truncation on the stored
    `len_context` column, not on the content itself.  A row whose content
    has 6501 characters but whose `len_context` column reads 6500 is not
    truncated, so the user-message content passed to the completion client
    exceeds 6500 characters. -/
theorem truncation_mismatch_counterexample :
    mismatchRow.len_context = 6500
    ∧ pyLen mismatchRow.content = 6501
    ∧ truncContext mismatchRow = mismatchRow.content
    ∧ (rowMessages "p" mismatchRow).get? 1 = some ⟨"user", mismatchRow.content⟩
    ∧ ¬(pyLen (truncContext mismatchRow) ≤ 6500) := by
  have h2 : pyLen mismatchRow.content = 6501 := by
    show (List.replicate 6501 'a').length = 6501
    exact List.length_replicate 6501 'a'
  have h3 : truncContext mismatchRow = mismatchRow.content := rfl
  refine ⟨rfl, h2, h3, rfl, ?_⟩
  rw [h3, h2]
  omega

/-- C5 amended: truncation is keyed on the stored `len_context` column:
    when it exceeds 6500 the user message is the first 6500 characters of
    the content.  Under the hypothesis that `len_context` equals the
    actual content length — the invariant the fetcher establishes — the
    user-message content passed to the completion client never exceeds
    6500 characters. -/
theorem truncation_bounded_by_len_context (prompt : String) (row : Row)
    (hlen : row.len_context = (pyLen row.content : Int)) :
    pyLen (truncContext row) ≤ 6500
    ∧ (row.len_context > 6500 → truncContext row = pySlice row.content 6500)
    ∧ rowMessages prompt row = [⟨"system", prompt⟩, ⟨"user", truncContext row⟩] := by
  refine ⟨?_, ?_, rfl⟩
  · by_cases h : row.len_context > 6500
    · simp only [truncContext, if_pos h]
      simp only [pySlice, pyLen]
      simp [List.length_take]
    · simp only [truncContext, if_neg h]
      have hle : (pyLen row.content : Int) ≤ 6500 := by rw [← hlen]; omega
      exact_mod_cast hle
  · intro h
    simp [truncContext, if_pos h]

/-- Witness for `truncation_bounded_by_len_context` at a concrete input. -/
theorem truncation_bounded_witness :
    skipRow.len_context = (pyLen skipRow.content : Int)
    ∧ pyLen (truncContext skipRow) ≤ 6500 := by
  refine ⟨rfl, ?_⟩
  exact (truncation_bounded_by_len_context "p" skipRow rfl).1

theorem lastIdxBelow_some (d : Int) :
    ∀ (l : List Int) (m : Nat), lastIdxBelow d l = some m →
      ∃ h : m < l.length, l[m] < d := by
  intro l
  induction l with
  | nil => intro m h; simp [lastIdxBelow] at h
  | cons x rest ih =>
    intro m h
    cases hr : lastIdxBelow d rest with
    | some k =>
      simp only [lastIdxBelow, hr, Option.some.injEq] at h
      subst h
      obtain ⟨hk, hlt⟩ := ih k hr
      refine ⟨by simpa using Nat.succ_lt_succ hk, ?_⟩
      simpa using hlt
    | none =>
      simp only [lastIdxBelow, hr] at h
      by_cases hx : x < d
      · rw [if_pos hx] at h
        injection h with h
        subst h
        exact ⟨by simp, by simpa using hx⟩
      · rw [if_neg hx] at h
        cases h

theorem lastIdxBelow_none (d : Int) :
    ∀ l : List Int, lastIdxBelow d l = none → ∀ y ∈ l, d ≤ y := by
  intro l
  induction l with
  | nil => intro _ y hy; cases hy
  | cons x rest ih =>
    intro h y hy
    cases hr : lastIdxBelow d rest with
    | some k =>
      simp only [lastIdxBelow, hr] at h
      exact Option.noConfusion h
    | none =>
      simp only [lastIdxBelow, hr] at h
      by_cases hx : x < d
      · rw [if_pos hx] at h; exact Option.noConfusion h
      · rcases List.mem_cons.mp hy with rfl | hy2
        · omega
        · exact ih hr y hy2

theorem insertPosition_sorted (d : Int) :
    ∀ l : List Int, l.Sorted (· ≤ ·) →
      (l.take (insertPosition l d) ++ d :: l.drop (insertPosition l d)).Sorted (· ≤ ·) := by
  intro l
  induction l with
  | nil =>
    intro _
    simp [insertPosition, lastIdxBelow]
  | cons x rest ih =>
    intro hs
    rw [List.sorted_cons] at hs
    obtain ⟨hx, hrest⟩ := hs
    cases hr : lastIdxBelow d rest with
    | some k =>
      have hpos : insertPosition (x :: rest) d = k + 2 := by
        simp [insertPosition, lastIdxBelow, hr]
      rw [hpos]
      simp only [List.take_succ_cons, List.drop_succ_cons, List.cons_append]
      rw [List.sorted_cons]
      obtain ⟨hk, hkd⟩ := lastIdxBelow_some d rest k hr
      constructor
      · intro b hb
        rcases List.mem_append.mp hb with h1 | h1
        · exact hx b ((List.take_sublist _ _).subset h1)
        · rcases List.mem_cons.mp h1 with rfl | h2
          · have hxk : x ≤ rest[k] := hx _ (List.getElem_mem hk)
            omega
          · exact hx b ((List.drop_sublist _ _).subset h2)
      · have hIH := ih hrest
        have hpos2 : insertPosition rest d = k + 1 := by simp [insertPosition, hr]
        rw [hpos2] at hIH
        exact hIH
    | none =>
      by_cases hxd : x < d
      · have hpos : insertPosition (x :: rest) d = 1 := by
          simp [insertPosition, lastIdxBelow, hr, hxd]
        rw [hpos]
        simp only [List.take_succ_cons, List.take_zero, List.drop_succ_cons,
          List.drop_zero, List.cons_append, List.nil_append]
        rw [List.sorted_cons]
        constructor
        · intro b hb
          rcases List.mem_cons.mp hb with rfl | h2
          · omega
          · exact hx b h2
        · rw [List.sorted_cons]
          exact ⟨fun b hb => lastIdxBelow_none d rest hr b hb, hrest⟩
      · have hpos : insertPosition (x :: rest) d = 0 := by
          simp [insertPosition, lastIdxBelow, hr, hxd]
        rw [hpos]
        simp only [List.take_zero, List.drop_zero, List.nil_append]
        rw [List.sorted_cons]
        constructor
        · intro b hb
          rcases List.mem_cons.mp hb with rfl | h2
          · omega
          · have hdb := lastIdxBelow_none d rest hr b h2
            omega
        · exact List.sorted_cons.mpr ⟨hx, hrest⟩

/-- C8: if the result collection is sorted by docid, inserting a recovered
    row at the linear-scan position of lines 309-318 (just after the last
    row with a smaller docid, or position 0 when there is none) yields a
    collection that is still sorted by docid. -/
theorem retry_insert_sorted (result : List ResultEntry) (entry : ResultEntry)
    (h : (result.map fun r => r.docid).Sorted (· ≤ ·)) :
    ((retryInsert result entry).map fun r => r.docid).Sorted (· ≤ ·) := by
  have hmain := insertPosition_sorted entry.docid (result.map fun r => r.docid) h
  have heq : (retryInsert result entry).map (fun r => r.docid)
      = (result.map fun r => r.docid).take
          (insertPosition (result.map fun r => r.docid) entry.docid)
        ++ entry.docid
          :: (result.map fun r => r.docid).drop
            (insertPosition (result.map fun r => r.docid) entry.docid) := by
    simp [retryInsert, List.map_take, List.map_drop]
  rw [heq]
  exact hmain

/-- A concrete result collection sorted by docid. -/
def sortedResult : List ResultEntry :=
  [⟨1, "a", "", "", "", 0, "", PyJson.null, PyJson.null, PyJson.null⟩,
   ⟨5, "a", "", "", "", 0, "", PyJson.null, PyJson.null, PyJson.null⟩]

/-- A concrete recovered row with a docid between the two above. -/
def recoveredEntry : ResultEntry :=
  ⟨3, "a", "", "", "", 0, "", PyJson.null, PyJson.null, PyJson.null⟩

/-- Witness for `retry_insert_sorted` at a concrete input. -/
theorem retry_insert_sorted_witness :
    (sortedResult.map fun r => r.docid).Sorted (· ≤ ·)
    ∧ ((retryInsert sortedResult recoveredEntry).map fun r => r.docid).Sorted (· ≤ ·) := by
  have h : (sortedResult.map fun r => r.docid).Sorted (· ≤ ·) := by
    simp [sortedResult, List.sorted_cons]
  exact ⟨h, retry_insert_sorted sortedResult recoveredEntry h⟩

/-- A response body that is valid JSON (an object) but carries a leading
    space, so it does not start with the opening brace character. -/
def spacedJson : String := " \x7b\"요약\": \"A\"\x7d"

/-- A json.loads oracle consistent with the real decoding of `spacedJson`:
    the body parses to a JSON object despite the leading space. -/
def jlSpaced : String → Option PyJson := fun s =>
  if s = spacedJson then some (PyJson.obj [("요약", PyJson.str "A")]) else none

/-- A plain-text response body in the five-line layout. -/
def plainBody : String := "요약: S\n\n분류: 상\n\n근거: R"

/-- C3 counterexample: the parsing does not dispatch on JSON validity.
    `spacedJson` is valid JSON whose JSON decoding yields the three fields
    ("A", "", ""), yet the single-row parser sends it down the fixed-line
    text branch (its brace test fails on the leading space) and raises an
    IndexError; and for a plain-text body the batch parser
    `process_response_content` raises a ValueError instead of extracting
    by line offsets (only the single-row parser has that branch). -/
theorem response_parsing_shape_counterexample :
    jlSpaced spacedJson = some (PyJson.obj [("요약", PyJson.str "A")])
    ∧ singleRowParse jlSpaced spacedJson = .error PyExc.indexError
    ∧ process_response_content jlSpaced (PyJson.str spacedJson)
        = .ok (PyJson.str "A", PyJson.str "", PyJson.str "")
    ∧ process_response_content jl0 (PyJson.str plainBody)
        = .error (PyExc.valueError "Unexpected content format: Not a valid JSON")
    ∧ singleRowParse jl0 plainBody
        = .ok (PyJson.str "S", PyJson.str "상", PyJson.str "R") :=
  ⟨rfl, rfl, rfl, rfl, rfl⟩

/-- C3 amended: the pipeline covers the two response shapes as follows.
    The batch parser `process_response_content` extracts the three fields
    by JSON decoding whenever the body decodes to a JSON object (it has no
    plain-text fallback and raises otherwise); the parser inlined in
    `process_single_row` dispatches on brace delimiters rather than JSON
    validity: a body that starts with \x7b and ends with \x7d is JSON
    decoded, and every other body is read at the fixed line offsets 0, 2
    and 4 with the field prefixes stripped. -/
theorem response_parsing_shapes (jl : String → Option PyJson) (c : String) :
    (∀ fields, jl c = some (PyJson.obj fields) →
      process_response_content jl (PyJson.str c)
        = .ok (dictGet fields "요약" (PyJson.str ""),
               dictGet fields "분류" (PyJson.str ""),
               dictGet fields "근거" (PyJson.str "")))
    ∧ (∀ fields, (pyStartsWith c "\x7b" && pyEndsWith c "\x7d") = true →
        jl c = some (PyJson.obj fields) →
        singleRowParse jl c
          = .ok (dictGet fields "요약" (PyJson.str ""),
                 dictGet fields "분류" (PyJson.str ""),
                 dictGet fields "근거" (PyJson.str "")))
    ∧ ((pyStartsWith c "\x7b" && pyEndsWith c "\x7d") = false →
        ∀ l0 l2 l4,
          (pySplitChar c '\n').get? 0 = some l0 →
          (pySplitChar c '\n').get? 2 = some l2 →
          (pySplitChar c '\n').get? 4 = some l4 →
          singleRowParse jl c
            = .ok (PyJson.str (pyStrip (pyReplace l0 "요약:" "")),
                   PyJson.str (pyStrip (pyReplace l2 "분류:" "")),
                   PyJson.str (pyStrip (pyReplace l4 "근거:" "")))) := by
  refine ⟨?_, ?_, ?_⟩
  · intro fields hjl
    simp [process_response_content, hjl]
  · intro fields hcond hjl
    simp [singleRowParse, hcond, hjl]
  · intro hcond l0 l2 l4 h0 h2 h4
    simp only [List.get?_eq_getElem?] at h0 h2 h4
    simp [singleRowParse, hcond, h0, h2, h4]

/-- Witness for `response_parsing_shapes` at a concrete input. -/
theorem response_parsing_shapes_witness :
    (pySplitChar plainBody '\n').get? 0 = some "요약: S"
    ∧ (pySplitChar plainBody '\n').get? 2 = some "분류: 상"
    ∧ (pySplitChar plainBody '\n').get? 4 = some "근거: R"
    ∧ (pyStartsWith plainBody "\x7b" && pyEndsWith plainBody "\x7d") = false
    ∧ singleRowParse jl0 plainBody
        = .ok (PyJson.str "S", PyJson.str "상", PyJson.str "R") := by
  refine ⟨rfl, rfl, rfl, rfl, ?_⟩
  have h := (response_parsing_shapes jl0 plainBody).2.2 rfl
    "요약: S" "분류: 상" "근거: R" rfl rfl rfl
  exact h.trans rfl

theorem dictGet_absent (fields : List (String × PyJson)) (key : String) (dflt : PyJson)
    (h : ∀ p ∈ fields, p.1 ≠ key) : dictGet fields key dflt = dflt := by
  have hf : fields.filter (fun p => p.1 == key) = [] := by
    rw [List.filter_eq_nil_iff]
    intro p hp
    simp [h p hp]
  simp [dictGet, hf]

/-- C10: on a string body, `process_response_content` raises the
    ValueError exactly when json.loads fails; when the body decodes to a
    JSON value that is not an object, the `.get` attribute lookup raises
    an AttributeError (which the `except json.JSONDecodeError` clause does
    not catch); and on every JSON object it succeeds, with the empty
    string standing in for each absent field. -/
theorem response_content_exception_behavior (jl : String → Option PyJson) (s : String) :
    (process_response_content jl (PyJson.str s)
        = .error (PyExc.valueError "Unexpected content format: Not a valid JSON")
      ↔ jl s = none)
    ∧ (∀ j, jl s = some j → (∀ fields, j ≠ PyJson.obj fields) →
        process_response_content jl (PyJson.str s) = .error PyExc.attributeError)
    ∧ (∀ fields, jl s = some (PyJson.obj fields) →
        process_response_content jl (PyJson.str s)
          = .ok (dictGet fields "요약" (PyJson.str ""),
                 dictGet fields "분류" (PyJson.str ""),
                 dictGet fields "근거" (PyJson.str ""))
        ∧ ((∀ p ∈ fields, p.1 ≠ "요약") →
            dictGet fields "요약" (PyJson.str "") = PyJson.str "")
        ∧ ((∀ p ∈ fields, p.1 ≠ "분류") →
            dictGet fields "분류" (PyJson.str "") = PyJson.str "")
        ∧ ((∀ p ∈ fields, p.1 ≠ "근거") →
            dictGet fields "근거" (PyJson.str "") = PyJson.str "")) := by
  refine ⟨?_, ?_, ?_⟩
  · cases hjl : jl s with
    | none => simp [process_response_content, hjl]
    | some j => cases j <;> simp [process_response_content, hjl]
  · intro j hjl hno
    cases j with
    | obj fields => exact absurd rfl (hno fields)
    | arr l => simp [process_response_content, hjl]
    | str t => simp [process_response_content, hjl]
    | num n => simp [process_response_content, hjl]
    | bool b => simp [process_response_content, hjl]
    | null => simp [process_response_content, hjl]
  · intro fields hjl
    exact ⟨by simp [process_response_content, hjl],
      fun h => dictGet_absent fields "요약" (PyJson.str "") h,
      fun h => dictGet_absent fields "분류" (PyJson.str "") h,
      fun h => dictGet_absent fields "근거" (PyJson.str "") h⟩

/-- A json.loads oracle that decodes every body to a fixed JSON object
    that lacks the 요약 and 근거 fields. -/
def jlObj : String → Option PyJson := fun _ => some (PyJson.obj [("분류", PyJson.str "상")])

/-- Witness for `response_content_exception_behavior` at concrete
    inputs. -/
theorem response_content_exception_witness :
    jlObj "x" = some (PyJson.obj [("분류", PyJson.str "상")])
    ∧ process_response_content jlObj (PyJson.str "x")
        = .ok (PyJson.str "", PyJson.str "상", PyJson.str "")
    ∧ process_response_content jl0 (PyJson.str "nojson")
        = .error (PyExc.valueError "Unexpected content format: Not a valid JSON") := by
  refine ⟨rfl, ?_, ?_⟩
  · have h := ((response_content_exception_behavior jlObj "x").2.2
      [("분류", PyJson.str "상")] rfl).1
    exact h.trans rfl
  · exact (response_content_exception_behavior jl0 "nojson").1.mpr rfl
